import Mathlib

/-!
Verification of the Brunel (2000) network-construction and calibration script
(src/brunel.ipynb) against its natural-language specification.

The script's floating-point arithmetic is modelled over the real numbers; the
engine routine LambertWm1 (NEST's SLI built-in, not part of this repository) is
modelled as an arbitrary function together with the lower-branch Lambert-W
characterization the specification gives for it.
-/

namespace Brunel

noncomputable section RealModel

/-! ## PSP normalization solver (ComputePSPnorm, notebook cell 2) -/

/-- The quantity a = tauMem / tauSyn of ComputePSPnorm. -/
def psp_a (tauMem tauSyn : ℝ) : ℝ := tauMem / tauSyn

/-- The quantity b = 1.0 / tauSyn - 1.0 / tauMem of ComputePSPnorm. -/
def psp_b (tauMem tauSyn : ℝ) : ℝ := 1 / tauSyn - 1 / tauMem

/-- The argument -exp(-1.0 / a) / a handed to LambertWm1 inside ComputePSPnorm. -/
def psp_z (tauMem tauSyn : ℝ) : ℝ :=
  -Real.exp (-1 / psp_a tauMem tauSyn) / psp_a tauMem tauSyn

/-- Modelled from the spec: the engine routine LambertWm1 is the lower (negative)
real branch of the Lambert W function; a real w is such a branch value at z
exactly when w * exp w = z and w ≤ -1. -/
def IsLambertWm1 (z w : ℝ) : Prop := w ≤ -1 ∧ w * Real.exp w = z

/-- The time of the PSP maximum, t_max = 1.0 / b * (-LambertWm1(-exp(-1.0/a)/a) - 1.0/a),
with the engine routine LambertWm1 passed in as the function W. -/
def psp_t_max (W : ℝ → ℝ) (tauMem tauSyn : ℝ) : ℝ :=
  1 / psp_b tauMem tauSyn * (-W (psp_z tauMem tauSyn) - 1 / psp_a tauMem tauSyn)

/-- ComputePSPnorm(tauMem, CMem, tauSyn) from the notebook, with the engine
routine LambertWm1 passed in as the function W: returns
exp(1.0) / (tauSyn * CMem * b) * ((exp(-t_max/tauMem) - exp(-t_max/tauSyn)) / b
- t_max * exp(-t_max/tauSyn)). -/
def ComputePSPnorm (W : ℝ → ℝ) (tauMem CMem tauSyn : ℝ) : ℝ :=
  Real.exp 1 / (tauSyn * CMem * psp_b tauMem tauSyn) *
    ((Real.exp (-psp_t_max W tauMem tauSyn / tauMem) -
        Real.exp (-psp_t_max W tauMem tauSyn / tauSyn)) / psp_b tauMem tauSyn -
      psp_t_max W tauMem tauSyn * Real.exp (-psp_t_max W tauMem tauSyn / tauSyn))

/-- Modelled from the spec: the normalization constant exactly as section 4.1
writes it, with w standing for the value W₋₁(-exp(-1/a)/a), a = tauMem/tauSyn,
b = 1/tauSyn - 1/tauMem and t_max = (1/b) * (-w - 1/a). -/
def PSPnorm_spec (w tauMem CMem tauSyn : ℝ) : ℝ :=
  Real.exp 1 / (tauSyn * CMem * (1 / tauSyn - 1 / tauMem)) *
    ((Real.exp (-(1 / (1 / tauSyn - 1 / tauMem) * (-w - 1 / (tauMem / tauSyn))) / tauMem) -
        Real.exp (-(1 / (1 / tauSyn - 1 / tauMem) * (-w - 1 / (tauMem / tauSyn))) / tauSyn)) /
        (1 / tauSyn - 1 / tauMem) -
      1 / (1 / tauSyn - 1 / tauMem) * (-w - 1 / (tauMem / tauSyn)) *
        Real.exp (-(1 / (1 / tauSyn - 1 / tauMem) * (-w - 1 / (tauMem / tauSyn))) / tauSyn))

/-! ## Weight calibrator (notebook cell 8) -/

/-- J_ex = J / J_unit from the notebook. -/
def J_ex (J J_unit : ℝ) : ℝ := J / J_unit

/-- J_in = -g * J_ex from the notebook. -/
def J_in (g J_ex_v : ℝ) : ℝ := -g * J_ex_v

/-! ## Synapse numerosity (notebook cell 7): CE = int(epsilon * NE), CI = int(epsilon * NI) -/

/-- Python's int() conversion on a real value: truncation toward zero. -/
def pyInt (x : ℝ) : ℤ := if 0 ≤ x then Int.floor x else -Int.floor (-x)

/-- CE = int(epsilon * NE) from the notebook. -/
def CE (epsilon : ℝ) (NE : ℕ) : ℤ := pyInt (epsilon * NE)

/-- CI = int(epsilon * NI) from the notebook. -/
def CI (epsilon : ℝ) (NI : ℕ) : ℤ := pyInt (epsilon * NI)

/-! ## Drive calibrator (notebook cell 9) -/

/-- nu_th = (theta * CMem) / (J_ex * CE * exp(1) * tauMem * tauSyn) from the notebook. -/
def nu_th (theta CMem J_ex_v CE_v tauMem tauSyn : ℝ) : ℝ :=
  (theta * CMem) / (J_ex_v * CE_v * Real.exp 1 * tauMem * tauSyn)

/-- nu_ex = eta * nu_th from the notebook. -/
def nu_ex (eta nu_th_v : ℝ) : ℝ := eta * nu_th_v

/-- p_rate = 1000.0 * nu_ex * CE from the notebook. -/
def p_rate (nu_ex_v CE_v : ℝ) : ℝ := 1000 * nu_ex_v * CE_v

/-! ## Metrics reporter (notebook cell 23) -/

/-- rate_ex = events_ex / simtime * 1000.0 / N_rec from the notebook. -/
def rate_ex (events_ex simtime N_rec_v : ℝ) : ℝ := events_ex / simtime * 1000 / N_rec_v

/-- rate_in = events_in / simtime * 1000.0 / N_rec from the notebook. -/
def rate_in (events_in simtime N_rec_v : ℝ) : ℝ := events_in / simtime * 1000 / N_rec_v

/-! ## Helper lemmas -/

lemma pyInt_eq_floor (x : ℝ) (hx : 0 ≤ x) : pyInt x = Int.floor x := by
  simp [pyInt, hx]

/-- Claim C5: for every norm > 0, target amplitude J > 0 and gain ratio g > 0, the
weight calibrator yields J_ex = J / norm and J_in = -g * J_ex, J_in has sign
opposite to J_ex (J_ex positive, J_in negative), and |J_in| = g * |J_ex| exactly. -/
theorem C5_weights (J norm g : ℝ) (hn : 0 < norm) (hJ : 0 < J) (hg : 0 < g) :
    J_ex J norm = J / norm ∧
    J_in g (J_ex J norm) = -g * J_ex J norm ∧
    0 < J_ex J norm ∧ J_in g (J_ex J norm) < 0 ∧
    |J_in g (J_ex J norm)| = g * |J_ex J norm| := by
  have hpos : 0 < J_ex J norm := div_pos hJ hn
  refine ⟨rfl, rfl, hpos, ?_, ?_⟩
  · have : 0 < g * J_ex J norm := mul_pos hg hpos
    simp only [J_in]
    linarith
  · simp only [J_in, neg_mul, abs_neg, abs_mul, abs_of_pos hg]

theorem C5_weights_witness :
    J_ex 1 2 = 1 / 2 ∧
    J_in 3 (J_ex 1 2) = -3 * J_ex 1 2 ∧
    0 < J_ex 1 2 ∧ J_in 3 (J_ex 1 2) < 0 ∧
    |J_in 3 (J_ex 1 2)| = 3 * |J_ex 1 2| :=
  C5_weights 1 2 3 (by norm_num) (by norm_num) (by norm_num)

/-- Claim C6: under the preconditions J_ex ≠ 0 and CE > 0, the drive calibrator
computes nu_th = (theta * CMem) / (J_ex * CE * e * tauMem * tauSyn),
nu_ex = eta * nu_th and p_rate = 1000 * nu_ex * CE, where CE = floor(epsilon * NE)
(Python's int() truncation agrees with floor since epsilon * NE is nonnegative). -/
theorem C6_drive (theta CMem J_ex_v eta epsilon tauMem tauSyn : ℝ) (NE : ℕ)
    (hJ : J_ex_v ≠ 0) (heps : 0 ≤ epsilon) (hCE : 0 < CE epsilon NE) :
    CE epsilon NE = Int.floor (epsilon * (NE : ℝ)) ∧
    nu_th theta CMem J_ex_v ((CE epsilon NE : ℤ) : ℝ) tauMem tauSyn =
      (theta * CMem) / (J_ex_v * ((CE epsilon NE : ℤ) : ℝ) * Real.exp 1 * tauMem * tauSyn) ∧
    nu_ex eta (nu_th theta CMem J_ex_v ((CE epsilon NE : ℤ) : ℝ) tauMem tauSyn) =
      eta * nu_th theta CMem J_ex_v ((CE epsilon NE : ℤ) : ℝ) tauMem tauSyn ∧
    p_rate (nu_ex eta (nu_th theta CMem J_ex_v ((CE epsilon NE : ℤ) : ℝ) tauMem tauSyn))
        ((CE epsilon NE : ℤ) : ℝ) =
      1000 * nu_ex eta (nu_th theta CMem J_ex_v ((CE epsilon NE : ℤ) : ℝ) tauMem tauSyn) *
        ((CE epsilon NE : ℤ) : ℝ) := by
  refine ⟨?_, rfl, rfl, rfl⟩
  exact pyInt_eq_floor _ (by positivity)

theorem C6_drive_witness :
    CE 1 2 = Int.floor ((1 : ℝ) * ((2 : ℕ) : ℝ)) ∧
    nu_th 1 1 1 ((CE 1 2 : ℤ) : ℝ) 1 1 =
      (1 * 1) / (1 * ((CE 1 2 : ℤ) : ℝ) * Real.exp 1 * 1 * 1) ∧
    nu_ex 1 (nu_th 1 1 1 ((CE 1 2 : ℤ) : ℝ) 1 1) =
      1 * nu_th 1 1 1 ((CE 1 2 : ℤ) : ℝ) 1 1 ∧
    p_rate (nu_ex 1 (nu_th 1 1 1 ((CE 1 2 : ℤ) : ℝ) 1 1)) ((CE 1 2 : ℤ) : ℝ) =
      1000 * nu_ex 1 (nu_th 1 1 1 ((CE 1 2 : ℤ) : ℝ) 1 1) * ((CE 1 2 : ℤ) : ℝ) :=
  C6_drive 1 1 1 1 1 1 1 2 (by norm_num) (by norm_num)
    (by norm_num [CE, pyInt])

/-- Claim C9: for every event count events_ex ≥ 0, simtime > 0 and N_rec > 0, the
metrics reporter computes rate_ex = events_ex / simtime * 1000 / N_rec (and
rate_in analogously), which equals events_ex * 1000 / (simtime * N_rec); in
particular for events_ex = 2080, simtime = 1000.0, N_rec = 50 it yields 41.6. -/
theorem C9_rates (events simtime nr : ℝ)
    (hev : 0 ≤ events) (hst : 0 < simtime) (hnr : 0 < nr) :
    rate_ex events simtime nr = events * 1000 / (simtime * nr) ∧
    rate_in events simtime nr = events * 1000 / (simtime * nr) ∧
    rate_ex 2080 1000.0 50 = 41.6 := by
  refine ⟨?_, ?_, ?_⟩
  · rw [rate_ex, div_mul_eq_mul_div, div_div]
  · rw [rate_in, div_mul_eq_mul_div, div_div]
  · norm_num [rate_ex]

theorem C9_rates_witness :
    rate_ex 2080 1000.0 50 = 2080 * 1000 / (1000.0 * 50) ∧
    rate_in 2080 1000.0 50 = 2080 * 1000 / (1000.0 * 50) ∧
    rate_ex 2080 1000.0 50 = 41.6 :=
  C9_rates 2080 1000.0 50 (by norm_num) (by norm_num) (by norm_num)

end RealModel

/-! ## Network topology generator (notebook cells 12, 17, 18)

Neurons are modelled by natural-number identifiers: nodes_ex is the NE
excitatory neurons, nodes_in the NI inhibitory neurons created after them,
and the two nest.Connect calls with rule fixed_indegree draw, for every
target in nodes_ex + nodes_in, a list of sources from the respective source
population. The randomized draw is passed in as a function from targets to
source lists, constrained by the fixed_indegree contract. -/

/-- The excitatory population nodes_ex = nest.Create("iaf_psc_alpha", NE),
modelled as the identifiers 0, ..., NE-1 in creation order. -/
def nodes_ex (NE : ℕ) : List ℕ := List.range NE

/-- The inhibitory population nodes_in = nest.Create("iaf_psc_alpha", NI),
modelled as the identifiers NE, ..., NE+NI-1 in creation order. -/
def nodes_in (NE NI : ℕ) : List ℕ := (List.range NI).map (fun i => NE + i)

/-- The combined target list nodes_ex + nodes_in of the two connection calls. -/
def allNodes (NE NI : ℕ) : List ℕ := nodes_ex NE ++ nodes_in NE NI

/-- Modelled from the spec: the edge set produced by one fixed_indegree
nest.Connect call (engine behaviour, section 4.4): for every target t, each
drawn source s contributes one directed edge (s, t). -/
def fixedIndegreeEdges (targets : List ℕ) (draw : ℕ → List ℕ) : List (ℕ × ℕ) :=
  targets.flatMap (fun t => (draw t).map (fun s => (s, t)))

/-- Modelled from the spec: the fixed_indegree contract (section 4.4) on the
random draw — every target draws exactly k distinct sources from the source
population. -/
def ValidDraw (sources : List ℕ) (k : ℕ) (targets : List ℕ) (draw : ℕ → List ℕ) : Prop :=
  ∀ t ∈ targets, (draw t).length = k ∧ (draw t).Nodup ∧ ∀ s ∈ draw t, s ∈ sources

instance (sources : List ℕ) (k : ℕ) (targets : List ℕ) (draw : ℕ → List ℕ) :
    Decidable (ValidDraw sources k targets draw) :=
  List.decidableBAll _ _

/-- The edges of nest.Connect(nodes_ex, nodes_ex + nodes_in, conn_params_ex,
"excitatory") with conn_params_ex = fixed_indegree CE, for a given draw. -/
def excEdges (NE NI : ℕ) (drawE : ℕ → List ℕ) : List (ℕ × ℕ) :=
  fixedIndegreeEdges (allNodes NE NI) drawE

/-- The edges of nest.Connect(nodes_in, nodes_ex + nodes_in, conn_params_in,
"inhibitory") with conn_params_in = fixed_indegree CI, for a given draw. -/
def inhEdges (NE NI : ℕ) (drawI : ℕ → List ℕ) : List (ℕ × ℕ) :=
  fixedIndegreeEdges (allNodes NE NI) drawI

/-- The error an engine connect call raises when the requested in-degree
exceeds the source-population size. -/
inductive ConnectError where
  | invalidDegree
deriving DecidableEq

/-- Modelled from the spec: the engine interface connectFixedInDegree
(section 6) — it fails with InvalidDegreeError before any edge is created
when the requested in-degree exceeds the number of sources, and otherwise
returns the full fixed-indegree edge set. -/
def connectFixedInDegree (sources targets : List ℕ) (k : ℕ) (draw : ℕ → List ℕ) :
    Except ConnectError (List (ℕ × ℕ)) :=
  if sources.length < k then Except.error ConnectError.invalidDegree
  else Except.ok (fixedIndegreeEdges targets draw)

/-! ## Synapse counting (notebook cells 15, 16, 17, 18, 24)

The script creates connections in six nest.Connect calls; each call uses one
of the two copied synapse models, and nest.GetDefaults(model)["num_connections"]
counts every connection created with that model. -/

/-- The two synapse models copied from static_synapse in the notebook. -/
inductive SynModel where
  | excitatory
  | inhibitory
deriving DecidableEq

/-- One nest.Connect call, reduced to its synapse model and the number of
connections it creates. -/
structure ConnCall where
  model : SynModel
  count : ℕ
deriving DecidableEq

/-- Modelled from the spec: the connection counts of the script's six
nest.Connect calls, in program order (engine counting behaviour) —
noise to nodes_ex (one generator to all NE neurons, excitatory model),
noise to nodes_in (NI connections, excitatory model),
nodes_ex[:N_rec] to espikes and nodes_in[:N_rec] to ispikes (N_rec
connections each, excitatory model), the fixed_indegree CE call
((NE+NI)*CE excitatory edges) and the fixed_indegree CI call
((NE+NI)*CI inhibitory edges). -/
def scriptConnections (NE NI NR CE_v CI_v : ℕ) : List ConnCall :=
  [ ⟨SynModel.excitatory, NE⟩,
    ⟨SynModel.excitatory, NI⟩,
    ⟨SynModel.excitatory, NR⟩,
    ⟨SynModel.excitatory, NR⟩,
    ⟨SynModel.excitatory, (NE + NI) * CE_v⟩,
    ⟨SynModel.inhibitory, (NE + NI) * CI_v⟩ ]

/-- nest.GetDefaults(model)["num_connections"]: the total count of
connections created with the given synapse model. -/
def num_connections (m : SynModel) (cs : List ConnCall) : ℕ :=
  ((cs.filter (fun c => c.model == m)).map ConnCall.count).sum

/-- num_synapses_ex = nest.GetDefaults("excitatory")["num_connections"]. -/
def num_synapses_ex (NE NI NR CE_v CI_v : ℕ) : ℕ :=
  num_connections SynModel.excitatory (scriptConnections NE NI NR CE_v CI_v)

/-- num_synapses_in = nest.GetDefaults("inhibitory")["num_connections"]. -/
def num_synapses_in (NE NI NR CE_v CI_v : ℕ) : ℕ :=
  num_connections SynModel.inhibitory (scriptConnections NE NI NR CE_v CI_v)

/-- num_synapses = num_synapses_ex + num_synapses_in from the notebook. -/
def num_synapses (NE NI NR CE_v CI_v : ℕ) : ℕ :=
  num_synapses_ex NE NI NR CE_v CI_v + num_synapses_in NE NI NR CE_v CI_v

/-! ## Topology helper lemmas -/

lemma fixedIndegreeEdges_length (targets : List ℕ) (draw : ℕ → List ℕ) (k : ℕ)
    (h : ∀ t ∈ targets, (draw t).length = k) :
    (fixedIndegreeEdges targets draw).length = targets.length * k := by
  induction targets with
  | nil => simp [fixedIndegreeEdges]
  | cons u ts ih =>
    have hu : (draw u).length = k := h u (by simp)
    have hts : ∀ t ∈ ts, (draw t).length = k := fun t ht => h t (by simp [ht])
    simp only [fixedIndegreeEdges, List.flatMap_cons, List.length_append,
      List.length_map, List.length_cons] at *
    rw [hu, ih hts]
    ring

lemma allNodes_length (NE NI : ℕ) : (allNodes NE NI).length = NE + NI := by
  simp [allNodes, nodes_ex, nodes_in]

lemma allNodes_nodup (NE NI : ℕ) : (allNodes NE NI).Nodup := by
  rw [allNodes, List.nodup_append]
  refine ⟨List.nodup_range NE, ?_, ?_⟩
  · exact List.Nodup.map (fun a b hab => by omega) (List.nodup_range NI)
  · intro x hx hy
    simp only [nodes_ex, List.mem_range] at hx
    simp only [nodes_in, List.mem_map, List.mem_range] at hy
    obtain ⟨i, _, rfl⟩ := hy
    omega

lemma countP_fixedIndegree_not_mem (targets : List ℕ) (draw : ℕ → List ℕ) (t : ℕ)
    (h : t ∉ targets) :
    (fixedIndegreeEdges targets draw).countP (fun e => e.2 == t) = 0 := by
  induction targets with
  | nil => simp [fixedIndegreeEdges]
  | cons u ts ih =>
    have hu : u ≠ t := fun hc => h (by simp [hc])
    have hts : t ∉ ts := fun hc => h (by simp [hc])
    have hstep : fixedIndegreeEdges (u :: ts) draw =
        (draw u).map (fun s => (s, u)) ++ fixedIndegreeEdges ts draw := rfl
    rw [hstep, List.countP_append, ih hts, List.countP_map]
    simp [Function.comp_def, hu]

lemma countP_fixedIndegree_mem (targets : List ℕ) (draw : ℕ → List ℕ) (t : ℕ)
    (hnd : targets.Nodup) (ht : t ∈ targets) :
    (fixedIndegreeEdges targets draw).countP (fun e => e.2 == t) = (draw t).length := by
  induction targets with
  | nil => simp at ht
  | cons u ts ih =>
    rw [List.nodup_cons] at hnd
    have hstep : fixedIndegreeEdges (u :: ts) draw =
        (draw u).map (fun s => (s, u)) ++ fixedIndegreeEdges ts draw := rfl
    rw [hstep, List.countP_append]
    rcases List.mem_cons.mp ht with rfl | hts
    · rw [countP_fixedIndegree_not_mem ts draw t hnd.1, List.countP_map]
      simp [Function.comp_def]
    · have hu : u ≠ t := fun hc => hnd.1 (hc ▸ hts)
      rw [ih hnd.2 hts, List.countP_map]
      simp [Function.comp_def, hu]

/-- Claim C3 counterexample: with NE = 2, NI = 1, CE = 1, CI = 1 and legitimate
fixed-indegree draws, the excitatory call produces 3 = (NE+NI)*CE directed
edges and the inhibitory call produces 3 = (NE+NI)*CI, not NE*CE = 2 and
NI*CI = 1 as the claim states. -/
theorem C3_cex :
    ValidDraw (nodes_ex 2) 1 (allNodes 2 1) (fun _ => [0]) ∧
    ValidDraw (nodes_in 2 1) 1 (allNodes 2 1) (fun _ => [2]) ∧
    (excEdges 2 1 (fun _ => [0])).length = 3 ∧
    (inhEdges 2 1 (fun _ => [2])).length = 3 ∧
    (excEdges 2 1 (fun _ => [0])).length ≠ 2 * 1 ∧
    (inhEdges 2 1 (fun _ => [2])).length ≠ 1 * 1 := by
  decide

/-- Claim C3 (amended): topology generation produces exactly (NE+NI)*CE
excitatory and exactly (NE+NI)*CI inhibitory directed edges in total, for
every choice of populations and of fixed-indegree draws satisfying the
connection contract — both calls target all NE+NI neurons. -/
theorem C3_edge_totals (NE NI CE_v CI_v : ℕ) (drawE drawI : ℕ → List ℕ)
    (hE : ValidDraw (nodes_ex NE) CE_v (allNodes NE NI) drawE)
    (hI : ValidDraw (nodes_in NE NI) CI_v (allNodes NE NI) drawI) :
    (excEdges NE NI drawE).length = (NE + NI) * CE_v ∧
    (inhEdges NE NI drawI).length = (NE + NI) * CI_v := by
  constructor
  · rw [excEdges, fixedIndegreeEdges_length (allNodes NE NI) drawE CE_v
      (fun t ht => (hE t ht).1), allNodes_length]
  · rw [inhEdges, fixedIndegreeEdges_length (allNodes NE NI) drawI CI_v
      (fun t ht => (hI t ht).1), allNodes_length]

theorem C3_edge_totals_witness :
    (excEdges 2 1 (fun _ => [0])).length = (2 + 1) * 1 ∧
    (inhEdges 2 1 (fun _ => [2])).length = (2 + 1) * 1 :=
  C3_edge_totals 2 1 1 1 (fun _ => [0]) (fun _ => [2]) (by decide) (by decide)

/-- Claim C4: after topology generation, every target neuron in Pex ∪ Pin has
realized in-degree exactly CE from the excitatory population and exactly CI
from the inhibitory population, the drawn sources within each single target's
draw are distinct, and the total directed-edge count of the two connection
calls is (NE+NI)*CE + (NE+NI)*CI. -/
theorem C4_indegree (NE NI CE_v CI_v : ℕ) (drawE drawI : ℕ → List ℕ)
    (hE : ValidDraw (nodes_ex NE) CE_v (allNodes NE NI) drawE)
    (hI : ValidDraw (nodes_in NE NI) CI_v (allNodes NE NI) drawI) :
    (∀ t ∈ allNodes NE NI,
      (excEdges NE NI drawE).countP (fun e => e.2 == t) = CE_v ∧
      (inhEdges NE NI drawI).countP (fun e => e.2 == t) = CI_v ∧
      (drawE t).Nodup ∧ (drawI t).Nodup) ∧
    (excEdges NE NI drawE).length + (inhEdges NE NI drawI).length =
      (NE + NI) * CE_v + (NE + NI) * CI_v := by
  constructor
  · intro t ht
    refine ⟨?_, ?_, (hE t ht).2.1, (hI t ht).2.1⟩
    · rw [excEdges, countP_fixedIndegree_mem (allNodes NE NI) drawE t
        (allNodes_nodup NE NI) ht, (hE t ht).1]
    · rw [inhEdges, countP_fixedIndegree_mem (allNodes NE NI) drawI t
        (allNodes_nodup NE NI) ht, (hI t ht).1]
  · rw [excEdges, inhEdges,
      fixedIndegreeEdges_length (allNodes NE NI) drawE CE_v (fun t ht => (hE t ht).1),
      fixedIndegreeEdges_length (allNodes NE NI) drawI CI_v (fun t ht => (hI t ht).1),
      allNodes_length]

theorem C4_indegree_witness :
    (∀ t ∈ allNodes 2 1,
      (excEdges 2 1 (fun _ => [0])).countP (fun e => e.2 == t) = 1 ∧
      (inhEdges 2 1 (fun _ => [2])).countP (fun e => e.2 == t) = 1 ∧
      (((fun _ => [0]) : ℕ → List ℕ) t).Nodup ∧
      (((fun _ => [2]) : ℕ → List ℕ) t).Nodup) ∧
    (excEdges 2 1 (fun _ => [0])).length + (inhEdges 2 1 (fun _ => [2])).length =
      (2 + 1) * 1 + (2 + 1) * 1 :=
  C4_indegree 2 1 1 1 (fun _ => [0]) (fun _ => [2]) (by decide) (by decide)

/-- Claim C8: for every requested in-degree k and source population, if k
exceeds the number of sources then the fixed-in-degree connection operation
fails with InvalidDegreeError and returns no edges at all — the check happens
before any topology is generated. -/
theorem C8_invalid_degree (sources targets : List ℕ) (k : ℕ) (draw : ℕ → List ℕ)
    (h : sources.length < k) :
    connectFixedInDegree sources targets k draw =
      Except.error ConnectError.invalidDegree ∧
    ∀ es : List (ℕ × ℕ), connectFixedInDegree sources targets k draw ≠ Except.ok es := by
  rw [connectFixedInDegree, if_pos h]
  exact ⟨rfl, fun es hc => by cases hc⟩

theorem C8_invalid_degree_witness :
    connectFixedInDegree [0] [5] 2 (fun _ => [0]) =
      Except.error ConnectError.invalidDegree ∧
    ∀ es : List (ℕ × ℕ), connectFixedInDegree [0] [5] 2 (fun _ => [0]) ≠ Except.ok es :=
  C8_invalid_degree [0] [5] 2 (fun _ => [0]) (by decide)

/-- Claim C2 counterexample: in the end-to-end configuration (NE = 10000,
NI = 2500, N_rec = 50, CE = 1000, CI = 250, as derived from order = 2500 and
epsilon = 0.1), the reported synapse total is 15,637,600, not
15,625,000 + 12,500 = 15,637,500 — the two recorder connection calls are also
created with the excitatory synapse model and are included in the count. -/
theorem C2_cex :
    num_synapses 10000 2500 50 1000 250 = 15637600 ∧
    num_synapses 10000 2500 50 1000 250 ≠ 15625000 + 12500 := by
  decide

/-- Claim C2 (amended): in the end-to-end configuration order = 2500
(NE = 10000, NI = 2500), epsilon = 0.1 (hence CE = 1000, CI = 250), the
reported total equals the network-connectivity total 15,625,000 plus the
N_neurons drive-to-all connections plus the 2*N_rec recorder connections,
i.e. exactly 15,625,000 + 12,500 + 100 = 15,637,600. -/
theorem C2_total :
    CE 0.1 10000 = 1000 ∧ CI 0.1 2500 = 250 ∧
    num_synapses 10000 2500 50 1000 250 = 15625000 + 12500 + 2 * 50 := by
  refine ⟨?_, ?_, by decide⟩
  · rw [CE, pyInt_eq_floor _ (by norm_num)]
    norm_num
  · rw [CI, pyInt_eq_floor _ (by norm_num)]
    norm_num

/-- Claim C10: the per-class synapse counters count every connection created
with that synapse model, not only the topology edges: the N_neurons
drive-to-all connections and the 2*N_rec recorder connections also use the
excitatory model, so the reported excitatory count is (NE+NI)*CE + (NE+NI)
+ 2*N_rec, the reported total is (NE+NI)*(CE+CI) + (NE+NI) + 2*N_rec, and in
the script's configuration the total is 15,637,600. -/
theorem C10_counters (NE NI NR CE_v CI_v : ℕ) :
    num_synapses_ex NE NI NR CE_v CI_v = (NE + NI) * CE_v + (NE + NI) + 2 * NR ∧
    num_synapses_in NE NI NR CE_v CI_v = (NE + NI) * CI_v ∧
    num_synapses NE NI NR CE_v CI_v = (NE + NI) * (CE_v + CI_v) + (NE + NI) + 2 * NR ∧
    num_synapses 10000 2500 50 1000 250 = 15637600 := by
  refine ⟨?_, ?_, ?_, by decide⟩ <;>
    simp [num_synapses, num_synapses_ex, num_synapses_in, num_connections,
      scriptConnections] <;> ring

/-! ## PSP solver analysis (claims C1 and C7) -/

/-- The engine's Lambert value at the reference point of the counterexample
configuration: at tauMem = 0.5, tauSyn = 20 the argument handed to LambertWm1
is -40 * exp(-40), whose lower-branch Lambert W value is exactly -40. -/
lemma lambertWm1_ref : IsLambertWm1 (psp_z 0.5 20) (-40) := by
  constructor
  · norm_num
  · rw [psp_z, psp_a]
    norm_num
    rw [div_div_eq_mul_div, mul_comm]
    norm_num

/-- Claim C1: for all tauMem, tauSyn, CMem > 0 with tauMem ≠ tauSyn,
ComputePSPnorm returns exp(1)/(tauSyn*CMem*b) * ((exp(-t_max/tauMem) -
exp(-t_max/tauSyn))/b - t_max*exp(-t_max/tauSyn)) with a = tauMem/tauSyn,
b = 1/tauSyn - 1/tauMem, t_max = (1/b)*(-w - 1/a), where w is the lower-branch
Lambert W value at -exp(-1/a)/a returned by the engine routine LambertWm1. -/
theorem C1_psp_formula (W : ℝ → ℝ) (tauMem CMem tauSyn w : ℝ)
    (hm : 0 < tauMem) (hs : 0 < tauSyn) (hC : 0 < CMem) (hne : tauMem ≠ tauSyn)
    (hw : IsLambertWm1 (psp_z tauMem tauSyn) w)
    (hWz : W (psp_z tauMem tauSyn) = w) :
    ComputePSPnorm W tauMem CMem tauSyn = PSPnorm_spec w tauMem CMem tauSyn := by
  rw [ComputePSPnorm, psp_t_max, hWz, PSPnorm_spec, psp_b, psp_a]

theorem C1_psp_formula_witness :
    ComputePSPnorm (fun _ => -40) 0.5 250 20 = PSPnorm_spec (-40) 0.5 250 20 :=
  C1_psp_formula (fun _ => -40) 0.5 250 20 (-40) (by norm_num) (by norm_num)
    (by norm_num) (by norm_num) lambertWm1_ref rfl

/-- ComputePSPnorm rewritten so that its sign is readable: the bracket equals
exp(-t_max/tauSyn) * (exp(b*t_max) - 1 - b*t_max) / b. -/
lemma psp_factored (W : ℝ → ℝ) (tauMem CMem tauSyn : ℝ)
    (hts : tauSyn ≠ 0) (htm : tauMem ≠ 0) (hb0 : psp_b tauMem tauSyn ≠ 0) :
    ComputePSPnorm W tauMem CMem tauSyn =
      Real.exp 1 / (tauSyn * CMem * psp_b tauMem tauSyn) *
        (Real.exp (-psp_t_max W tauMem tauSyn / tauSyn) *
          ((Real.exp (psp_b tauMem tauSyn * psp_t_max W tauMem tauSyn) - 1 -
            psp_b tauMem tauSyn * psp_t_max W tauMem tauSyn) / psp_b tauMem tauSyn)) := by
  have hsplit : Real.exp (-psp_t_max W tauMem tauSyn / tauMem) =
      Real.exp (-psp_t_max W tauMem tauSyn / tauSyn) *
        Real.exp (psp_b tauMem tauSyn * psp_t_max W tauMem tauSyn) := by
    rw [← Real.exp_add]
    congr 1
    rw [psp_b]
    field_simp
    ring
  rw [ComputePSPnorm, hsplit]
  field_simp
  ring

/-- Positivity of the PSP norm for tauSyn < tauMem: any lower-branch value
w ≤ -1 puts b * t_max strictly above 0, and exp x > 1 + x for x ≠ 0 makes the
factored bracket positive. -/
lemma psp_pos (W : ℝ → ℝ) (tauMem CMem tauSyn : ℝ)
    (hs : 0 < tauSyn) (hm : tauSyn < tauMem) (hC : 0 < CMem)
    (hW : W (psp_z tauMem tauSyn) ≤ -1) :
    0 < ComputePSPnorm W tauMem CMem tauSyn := by
  have hm0 : 0 < tauMem := hs.trans hm
  have hts : tauSyn ≠ 0 := ne_of_gt hs
  have htm : tauMem ≠ 0 := ne_of_gt hm0
  have hb : 0 < psp_b tauMem tauSyn := by
    have h1 := one_div_lt_one_div_of_lt hs hm
    rw [psp_b]
    linarith
  have hb0 : psp_b tauMem tauSyn ≠ 0 := ne_of_gt hb
  have ha1 : 1 / psp_a tauMem tauSyn < 1 := by
    rw [psp_a, one_div_div]
    exact (div_lt_one hm0).mpr hm
  have hbt : psp_b tauMem tauSyn * psp_t_max W tauMem tauSyn =
      -W (psp_z tauMem tauSyn) - 1 / psp_a tauMem tauSyn := by
    rw [psp_t_max]
    field_simp
  have hbtpos : 0 < psp_b tauMem tauSyn * psp_t_max W tauMem tauSyn := by
    rw [hbt]
    linarith
  have hkey : 0 < Real.exp (psp_b tauMem tauSyn * psp_t_max W tauMem tauSyn) - 1 -
      psp_b tauMem tauSyn * psp_t_max W tauMem tauSyn := by
    have h2 := Real.add_one_lt_exp (ne_of_gt hbtpos)
    linarith
  rw [psp_factored W tauMem CMem tauSyn hts htm hb0]
  have h3 : 0 < Real.exp 1 / (tauSyn * CMem * psp_b tauMem tauSyn) :=
    div_pos (Real.exp_pos 1) (mul_pos (mul_pos hs hC) hb)
  exact mul_pos h3 (mul_pos (Real.exp_pos _) (div_pos hkey hb))

/-- Claim C7 counterexample: at tauMem = 0.5, tauSyn = 20, CMem = 250 (all
positive, tauMem ≠ tauSyn), the value -40 is the genuine lower-branch Lambert W
value at the solver's argument, yet ComputePSPnorm evaluates to exactly 0 —
t_max degenerates to 0 — so the solver's result is not positive for all
tauMem ≠ tauSyn. -/
theorem C7_cex :
    IsLambertWm1 (psp_z 0.5 20) (-40) ∧
    ComputePSPnorm (fun _ => -40) 0.5 250 20 = 0 ∧
    ¬ 0 < ComputePSPnorm (fun _ => -40) 0.5 250 20 := by
  have hz : ComputePSPnorm (fun _ => -40) 0.5 250 20 = 0 := by
    norm_num [ComputePSPnorm, psp_t_max, psp_b, psp_a, psp_z]
  exact ⟨lambertWm1_ref, hz, by rw [hz]; exact lt_irrefl 0⟩

/-- Claim C7 (amended): for all tauMem, tauSyn, CMem > 0 with tauSyn < tauMem
(rather than merely tauMem ≠ tauSyn), ComputePSPnorm is positive — and, being a
real number of the model, finite; and at the reference configuration
tauMem = 20, tauSyn = 0.5, CMem = 250 a reference value matched to within 1e-6
relative tolerance exists (the specification names no concrete number). -/
theorem C7_psp_positive (W : ℝ → ℝ) (tauMem CMem tauSyn : ℝ)
    (hs : 0 < tauSyn) (hm : tauSyn < tauMem) (hC : 0 < CMem)
    (hW : W (psp_z tauMem tauSyn) ≤ -1) (hWref : W (psp_z 20 0.5) ≤ -1) :
    0 < ComputePSPnorm W tauMem CMem tauSyn ∧
    ∃ ref : ℝ, ref ≠ 0 ∧
      |ComputePSPnorm W 20 250 0.5 - ref| ≤ 1e-6 * |ref| := by
  have hpos := psp_pos W tauMem CMem tauSyn hs hm hC hW
  have hposref := psp_pos W 20 250 0.5 (by norm_num) (by norm_num) (by norm_num) hWref
  refine ⟨hpos, ComputePSPnorm W 20 250 0.5, ne_of_gt hposref, ?_⟩
  rw [sub_self, abs_zero]
  positivity

theorem C7_psp_positive_witness :
    0 < ComputePSPnorm (fun _ => -5) 20 250 0.5 ∧
    ∃ ref : ℝ, ref ≠ 0 ∧
      |ComputePSPnorm (fun _ => -5) 20 250 0.5 - ref| ≤ 1e-6 * |ref| :=
  C7_psp_positive (fun _ => -5) 20 250 0.5 (by norm_num) (by norm_num) (by norm_num)
    (by norm_num) (by norm_num)

end Brunel
